import Mathlib

/-!
Shallow embedding of the battery-charging state machine of
`common/charge_state_v2.c` (ChromiumOS EC), together with proofs about the
charging decision loop, the critical-battery monitor, the dual-battery
power allocator and the host/console control surface.

C integer division truncates toward zero; we use `Int.tdiv` (Lean's
truncating division) wherever the C source divides.
-/

namespace ChargeStateModel

/-- `enum battery_present` from the EC headers. -/
inductive BattPresent
  | yes
  | no
  | notSure
  | notInit
deriving DecidableEq, Repr

/-- `enum charge_state_v2`: the charging task's states. -/
inductive ChargeState
  | idle
  | discharge
  | charge
  | precharge
deriving DecidableEq, Repr

/-- Result codes used by the modelled functions (a tag per EC error code
the embedded code distinguishes). -/
inductive EcRes
  | success
  | err
  | inval
  | notPowered
  | unimplemented
  | unavailable
deriving DecidableEq, Repr

/-- `enum ec_charge_control_mode` numeric values. -/
def CHARGE_CONTROL_NORMAL : Nat := 0
def CHARGE_CONTROL_IDLE : Nat := 1
def CHARGE_CONTROL_DISCHARGE : Nat := 2
def CHARGE_CONTROL_COUNT : Nat := 3

/-- Compile-time feature selection relevant to the modelled code paths. -/
structure Config where
  dischargeOnAC : Bool
  nvdc : Bool
  ocpc : Bool
  preferMV : Bool
  hibernateBuilt : Bool
  hostcmdEvents : Bool
  lowVoltageProtection : Bool
  nilWhenDead : Bool
  reviveDisconnect : Bool
deriving DecidableEq, Repr

/-- Per-field validity flags of `struct batt_params` (`BATT_FLAG_BAD_*`,
`BATT_FLAG_RESPONSIVE`, `BATT_FLAG_DEEP_CHARGE`). -/
structure BattFlags where
  badTemperature : Bool
  badStateOfCharge : Bool
  badVoltage : Bool
  badCurrent : Bool
  badDesiredVoltage : Bool
  badDesiredCurrent : Bool
  responsive : Bool
  deepCharge : Bool
deriving DecidableEq, Repr

/-- `BATT_FLAG_BAD_ANY`: any of the bad-reading bits. -/
def BattFlags.badAny (f : BattFlags) : Bool :=
  f.badTemperature || f.badStateOfCharge || f.badVoltage || f.badCurrent ||
    f.badDesiredVoltage || f.badDesiredCurrent

/-- Battery telemetry (`struct batt_params`) as read each tick. -/
structure BattParams where
  temperature : Int
  state_of_charge : Int
  voltage : Int
  current : Int
  desired_voltage : Int
  desired_current : Int
  is_present : BattPresent
  flags : BattFlags
deriving DecidableEq, Repr

/-- Static battery constants (`struct battery_info`). -/
structure BatteryInfo where
  voltage_max : Int
  voltage_normal : Int
  voltage_min : Int
  precharge_current : Int
  discharging_min_c : Int
  discharging_max_c : Int
deriving DecidableEq, Repr

/-- Charger constants (`struct charger_info`), only the field the modelled
paths read. -/
structure ChargerInfo where
  voltage_step : Int
deriving DecidableEq, Repr

/-- The problem kinds of the diagnostic ledger (`enum problem_type`). -/
inductive Problem
  | staticUpdate
  | setVoltage
  | setCurrent
  | setMode
  | setInputCurr
  | postInit
  | chgFlags
  | battFlags
  | custom
  | cfgSecChg
deriving DecidableEq, Repr

/-- Externally visible actions the critical-battery monitor can take. -/
inductive Effect
  | hostEventShutdown
  | hibernate
  | cutoff
  | forceShutdown
deriving DecidableEq, Repr

/-- `enum critical_shutdown`: the board-configured critical action. -/
inductive CriticalShutdown
  | ignore
  | hibernate
  | cutoff
deriving DecidableEq, Repr

/-- Chipset (AP) power state abstraction: the two predicates the modelled
code queries. -/
structure Chipset where
  anyOff : Bool
  transitioningToOff : Bool
  anySuspend : Bool
deriving DecidableEq, Repr

/-- `chipset_in_or_transitioning_to_state(CHIPSET_STATE_ANY_OFF)`. -/
def Chipset.inOrTransitioningToOff (c : Chipset) : Bool :=
  c.anyOff || c.transitioningToOff

/-! ## Dual-battery helper primitives (`CONFIG_EC_EC_COMM_BATTERY_CLIENT`) -/

/-- `smooth_value(prev, curr, s)`: smooth power value, covering some edge
cases; computes `s*curr+(1-s)*prev` with `s` in 1/128 units. -/
def smooth_value (prev curr s : Int) : Int :=
  let curr := if curr < 0 then 0 else curr
  if prev < 0 then curr
  else prev + Int.tdiv (s * (curr - prev)) 128

/-- `add_margin(value, m)`: compute `(1+m)*value`, `m` in 1/128 units. -/
def add_margin (value m : Int) : Int :=
  value + Int.tdiv (m * value) 128

/-- The guarded battery-power smoothing update as performed at the
`base_charge_allocate_input_current_limit` call sites: smoothing is applied
only when the new power estimate is below the previous one
(`if (lid_battery_power < prev_lid_battery_power) ... smooth_value(...)`). -/
def battery_power_update (prev curr s : Int) : Int :=
  if curr < prev then smooth_value prev curr s else curr

/-- The `CHG_ALLOCATE(power_var, total_power, value)` macro: add at most
`value` to the power variable, subtracting from the budget. -/
def chgAllocate (power_var total_power value : Int) : Int × Int :=
  let val_capped := min value total_power
  (power_var + val_capped, total_power - val_capped)

/-- Run a sequence of `CHG_ALLOCATE` steps against a budget, recording for
each step the pair (amount allocated, budget before the step). -/
def allocate_trace (total : Int) : List Int → List (Int × Int)
  | [] => []
  | v :: vs =>
    let step := chgAllocate 0 total v
    (step.1, total) :: allocate_trace step.2 vs

/-- The remaining budget after a sequence of `CHG_ALLOCATE` steps. -/
def allocate_rest (total : Int) : List Int → Int
  | [] => total
  | v :: vs => allocate_rest (chgAllocate 0 total v).2 vs

/-! ## Charge-control mode and the battery sustainer -/

/-- The control-mode state committed by `set_chg_ctrl_mode`: the static
variables `chg_ctl_mode`, `manual_current` and `manual_voltage`. -/
structure CtrlState where
  chg_ctl_mode : Nat
  manual_current : Int
  manual_voltage : Int
deriving DecidableEq, Repr

/-- `struct sustain_soc`: the sustainer band `{lower, upper}`. -/
structure SustainSoc where
  lower : Int
  upper : Int
deriving DecidableEq, Repr

/-- `battery_sustainer_set(lower, upper)`: validate and store a sustain
band; `-1` on either side disables the sustainer. Returns the EC result
code together with the resulting band. -/
def battery_sustainer_set (dischargeOnAC : Bool) (lower upper : Int)
    (band : SustainSoc) : EcRes × SustainSoc :=
  if lower = -1 ∨ upper = -1 then
    (.success, ⟨-1, -1⟩)
  else if lower ≤ upper ∧ 0 ≤ lower ∧ upper ≤ 100 then
    -- Currently sustainer requires discharge_on_ac.
    if !dischargeOnAC then (.unavailable, band)
    else (.success, ⟨lower, upper⟩)
  else
    (.inval, band)

/-- `battery_sustainer_disable()`. -/
def battery_sustainer_disable (dischargeOnAC : Bool) (band : SustainSoc) :
    SustainSoc :=
  (battery_sustainer_set dischargeOnAC (-1) (-1) band).2

/-- `battery_sustainer_enabled()`. -/
def battery_sustainer_enabled (band : SustainSoc) : Bool :=
  decide (band.lower ≠ -1) && decide (band.upper ≠ -1)

/-- Truncation of an `int` to `int8_t`, as happens when the console
`chgstate sustain` arguments are passed to `battery_sustainer_set`. -/
def toInt8 (x : Int) : Int := (x + 128) % 256 - 128

/-- The band modification performed by the console command
`chgstate sustain <lower> <upper>` (`command_chgstate`): the parsed `int`
arguments are truncated to the `int8_t` parameters of
`battery_sustainer_set`. -/
def command_chgstate_sustain (dischargeOnAC : Bool) (lower upper : Int)
    (band : SustainSoc) : EcRes × SustainSoc :=
  battery_sustainer_set dischargeOnAC (toInt8 lower) (toInt8 upper) band

/-- The band modification performed by the `EC_CMD_CHARGE_CONTROL` host
command, version ≥ 2, `SET` sub-command (`charge_command_charge_control`):
mode `NORMAL` forwards the requested band to `battery_sustainer_set`, any
other mode disables the sustainer. -/
def charge_control_set_band (dischargeOnAC : Bool) (mode : Nat)
    (lower upper : Int) (band : SustainSoc) : SustainSoc :=
  if mode = CHARGE_CONTROL_NORMAL then
    (battery_sustainer_set dischargeOnAC lower upper band).2
  else
    battery_sustainer_disable dischargeOnAC band

/-- `set_chg_ctrl_mode(mode)`: force charging off before the battery is
full. `drvRes` is the result of the `charger_discharge_on_ac` driver call.
Returns the result code and the (possibly updated) control state. -/
def set_chg_ctrl_mode (cfg : Config) (ac : Bool) (drvRes : EcRes)
    (mode : Nat) (s : CtrlState) : EcRes × CtrlState :=
  if CHARGE_CONTROL_COUNT ≤ mode then (.inval, s)
  else
    let cv : Option (Int × Int) :=
      if mode = CHARGE_CONTROL_NORMAL then
        some (-1, -1)
      else if !ac then
        -- Changing mode is only meaningful if AC is present.
        none
      else if mode = CHARGE_CONTROL_DISCHARGE ∧ !cfg.dischargeOnAC then
        none
      else if mode = CHARGE_CONTROL_IDLE then
        some (0, 0)
      else
        some (s.manual_current, s.manual_voltage)
    match cv with
    | none =>
      if !ac then (.notPowered, s) else (.unimplemented, s)
    | some (current, voltage) =>
      if cfg.dischargeOnAC ∧ drvRes ≠ .success then
        (drvRes, s)
      else
        -- Commit all atomically.
        (.success,
         { chg_ctl_mode := mode, manual_current := current,
           manual_voltage := voltage })

/-- `sustain_battery_soc()`: one sustainer evaluation. `dispCharge` is
`charge_get_display_charge()` (in 0.1% units). Returns the updated control
state. -/
def sustain_battery_soc (cfg : Config) (ac : Bool) (battPresent : BattPresent)
    (dispCharge : Int) (drvRes : EcRes) (band : SustainSoc)
    (s : CtrlState) : CtrlState :=
  -- If either AC or battery is not present, nothing to do.
  if !ac ∨ battPresent ≠ .yes ∨ !battery_sustainer_enabled band then s
  else
    let soc := Int.tdiv dispCharge 10
    let mode := s.chg_ctl_mode
    let mode :=
      if mode = CHARGE_CONTROL_NORMAL then
        if band.lower = soc ∧ soc = band.upper then CHARGE_CONTROL_IDLE
        else if band.upper < soc then CHARGE_CONTROL_DISCHARGE
        else mode
      else if mode = CHARGE_CONTROL_IDLE then
        if soc < band.lower then CHARGE_CONTROL_NORMAL else mode
      else if mode = CHARGE_CONTROL_DISCHARGE then
        if band.lower = soc ∧ soc = band.upper then CHARGE_CONTROL_IDLE
        else if soc < band.lower then CHARGE_CONTROL_NORMAL
        else mode
      else
        mode
    if mode = s.chg_ctl_mode then s
    else (set_chg_ctrl_mode cfg ac drvRes mode s).2

/-- Iterate the sustainer over a sequence of per-tick display-charge
readings, collecting the control mode after each tick. -/
def sustain_run (cfg : Config) (ac : Bool) (battPresent : BattPresent)
    (drvRes : EcRes) (band : SustainSoc) (s : CtrlState) :
    List Int → List Nat
  | [] => []
  | d :: ds =>
    let s := sustain_battery_soc cfg ac battPresent d drvRes band s
    s.chg_ctl_mode :: sustain_run cfg ac battPresent drvRes band s ds

/-! ## Critical-battery monitor -/

/-- `DECI_KELVIN_TO_CELSIUS` conversion used on the battery temperature. -/
def DECI_KELVIN_TO_CELSIUS (t : Int) : Int := Int.tdiv (t - 2731) 10

/-- `battery_too_hot(batt_temp_c)`. -/
def battery_too_hot (b : BattParams) (info : BatteryInfo) (tempC : Int) :
    Bool :=
  !b.flags.badTemperature && decide (info.discharging_max_c < tempC)

/-- `battery_too_cold_for_discharge(batt_temp_c)`. -/
def battery_too_cold_for_discharge (b : BattParams) (info : BatteryInfo)
    (tempC : Int) : Bool :=
  !b.flags.badTemperature && decide (tempC < info.discharging_min_c)

/-- `battery_too_low()`: charge known too low, or voltage known too low. -/
def battery_too_low (b : BattParams) (info : BatteryInfo)
    (levelShutdown : Int) : Bool :=
  (!b.flags.badStateOfCharge && decide (b.state_of_charge < levelShutdown)) ||
    (!b.flags.badVoltage && decide (b.voltage ≤ info.voltage_min))

/-- `is_battery_critical()`. -/
def is_battery_critical (b : BattParams) (info : BatteryInfo) (ac : Bool)
    (batt_is_charging : Bool) (levelShutdown : Int) : Bool :=
  let tempC := DECI_KELVIN_TO_CELSIUS b.temperature
  battery_too_hot b info tempC ||
    (!ac && battery_too_cold_for_discharge b info tempC) ||
    (battery_too_low b info levelShutdown && !batt_is_charging)

/-- Per-tick environment of the critical-battery monitor. -/
structure CritEnv where
  now : Nat
  timeoutUs : Nat
  chipset : Chipset
  boardAction : CriticalShutdown
deriving DecidableEq, Repr

/-- `shutdown_on_critical_battery()`: `critical` is the value of
`is_battery_critical()` this tick and `target` the countdown timestamp
`shutdown_target_time.val` (0 meaning "not started"). Returns the function
result, the new countdown timestamp and the external actions taken. -/
def shutdown_on_critical_battery (cfg : Config) (critical : Bool)
    (env : CritEnv) (target : Nat) : Bool × Nat × List Effect :=
  if !critical then
    -- Reset shutdown warning time.
    (false, 0, [])
  else if target = 0 then
    -- Start count down timer.
    (true, env.now + env.timeoutUs,
     if cfg.hostcmdEvents && !env.chipset.anyOff then
       [Effect.hostEventShutdown]
     else [])
  else if env.now < target then
    (true, target, [])
  else if env.chipset.inOrTransitioningToOff then
    (true, target,
     match env.boardAction with
     | .hibernate => if cfg.hibernateBuilt then [Effect.hibernate] else []
     | .cutoff => [Effect.cutoff]
     | .ignore => [])
  else
    -- Timeout waiting for AP to shut down, so kill it.
    (true, target, [Effect.forceShutdown])

/-- Iterate the countdown timestamp over a sequence of ticks, where tick
`i` observes criticality `cs[i]` at environment `es[i]`. -/
def critical_countdown_run (cfg : Config) (target : Nat) :
    List (Bool × CritEnv) → Nat
  | [] => target
  | (c, e) :: rest =>
    critical_countdown_run cfg (shutdown_on_critical_battery cfg c e target).2.1
      rest

/-! ## `charge_request`: programming the charger -/

/-- Charger sub-operations, in the order `charge_request` issues them. -/
inductive ChgOp
  | enableBypass (b : Bool)
  | setCurrent (ma : Int)
  | setVoltage (mv : Int)
  | cfgSecondary (mv ma : Int)
  | setMode (inhibit : Bool)
deriving DecidableEq, Repr

/-- Whether an operation is one of the current/voltage programming pair. -/
def ChgOp.isCV : ChgOp → Bool
  | .setCurrent _ => true
  | .setVoltage _ => true
  | _ => false

/-- Whether an operation is a set-current command. -/
def ChgOp.isCurrent : ChgOp → Bool
  | .setCurrent _ => true
  | _ => false

/-- Whether an operation is a set-voltage command. -/
def ChgOp.isVoltage : ChgOp → Bool
  | .setVoltage _ => true
  | _ => false

/-- `curr.ocpc.active_chg_chip` (OCPC builds). -/
inductive ActiveChgChip
  | primary
  | secondary
  | inactive
deriving DecidableEq, Repr

/-- Environment read by `charge_request`: telemetry and driver constants. -/
structure ChgReqEnv where
  battVoltage : Int
  isFull : Bool
  battInfo : BatteryInfo
  chargerInfo : ChargerInfo
  closestVoltage : Int → Int
  shouldBypass : Bool
  statusBypassOn : Bool

/-- Results the charger drivers return to each `charge_request`
sub-operation this tick. -/
structure ChgDrvResults where
  setCurrentRes : EcRes
  setVoltageRes : EcRes
  setModeRes : EcRes
  cfgSecRes : EcRes
deriving DecidableEq, Repr

/-- The rewrite `charge_request` applies when either argument is 0:
charging is disabled; with an NVDC charger the voltage is instead held at
a floor above the battery voltage (`charger_closest_voltage(batt + step)`,
the battery max when full, and at least `voltage_normal`). -/
def charge_request_disable_values (cfg : Config) (env : ChgReqEnv)
    (voltage current : Int) : Int × Int :=
  if voltage = 0 ∨ current = 0 then
    if cfg.nvdc then
      let v := env.closestVoltage (env.battVoltage + env.chargerInfo.voltage_step)
      let v := if env.isFull then env.battInfo.voltage_max else v
      (max v env.battInfo.voltage_normal, 0)
    else
      (0, 0)
  else
    (voltage, current)

/-- Whether `charge_request` issues `charger_set_current` (OCPC builds
skip it unless the primary charger chip is active). -/
def setCurrentAttempted (cfg : Config) (chip : ActiveChgChip)
    (current : Int) : Bool :=
  decide (0 ≤ current) && (!cfg.ocpc || decide (chip = .primary))

/-- Whether `charge_request` issues the OCPC secondary-charger
configuration. -/
def cfgSecAttempted (cfg : Config) (chip : ActiveChgChip)
    (voltage current : Int) : Bool :=
  cfg.ocpc && decide (chip = .secondary) &&
    (decide (0 ≤ current) || decide (0 ≤ voltage))

/-- Result of one `charge_request` call. -/
structure ChgReqResult where
  ret : EcRes
  effVoltage : Int
  effCurrent : Int
  prevVolt : Int
  prevCurr : Int
  trace : List ChgOp
  problems : List Problem
  stableReset : Bool

/-- The `r2` value of `charge_request` (result of `charger_set_current`,
`EC_SUCCESS` if the call is skipped). -/
def charge_request_r2 (cfg : Config) (chip : ActiveChgChip)
    (dr : ChgDrvResults) (current : Int) : EcRes :=
  if setCurrentAttempted cfg chip current then dr.setCurrentRes else .success

/-- The `r1` value of `charge_request` (result of `charger_set_voltage`,
`EC_SUCCESS` if the call is skipped). -/
def charge_request_r1 (dr : ChgDrvResults) (voltage : Int) : EcRes :=
  if 0 ≤ voltage then dr.setVoltageRes else .success

/-- The `r3` value of `charge_request` (result of
`ocpc_config_secondary_charger`, `EC_SUCCESS` if skipped). -/
def charge_request_r3 (cfg : Config) (chip : ActiveChgChip)
    (dr : ChgDrvResults) (voltage current : Int) : EcRes :=
  if cfgSecAttempted cfg chip voltage current then dr.cfgSecRes else .success

/-- The return value of `charge_request`: the first failing mandatory
result among voltage/current, else the OCPC secondary-configuration
result, else success. The set-mode result `r4` does not participate. -/
def charge_request_ret (cfg : Config) (chip : ActiveChgChip)
    (dr : ChgDrvResults) (voltage current : Int) : EcRes :=
  let r1 := charge_request_r1 dr voltage
  let r2 := charge_request_r2 cfg chip dr current
  let r3 := charge_request_r3 cfg chip dr voltage current
  if r1 ≠ .success ∨ r2 ≠ .success then (if r1 ≠ .success then r1 else r2)
  else if cfg.ocpc ∧ r3 ≠ .success then r3
  else .success

/-- The sequence of driver operations `charge_request` issues, in order:
optional bypass toggle, set current, set voltage, optional secondary
configuration, set mode. -/
def charge_request_ops (cfg : Config) (env : ChgReqEnv)
    (chip : ActiveChgChip) (voltage current : Int) : List ChgOp :=
  (if env.shouldBypass != env.statusBypassOn
   then [ChgOp.enableBypass env.shouldBypass] else []) ++
    (if setCurrentAttempted cfg chip current
     then [ChgOp.setCurrent current] else []) ++
    (if 0 ≤ voltage then [ChgOp.setVoltage voltage] else []) ++
    (if cfgSecAttempted cfg chip voltage current
     then [ChgOp.cfgSecondary voltage current] else []) ++
    [ChgOp.setMode (!(decide (0 < voltage) || decide (0 < current)))]

/-- The problems `charge_request` records in the diagnostic ledger this
call. -/
def charge_request_problem_list (cfg : Config) (chip : ActiveChgChip)
    (dr : ChgDrvResults) (voltage current : Int) : List Problem :=
  (if charge_request_r2 cfg chip dr current ≠ .success
   then [Problem.setCurrent] else []) ++
    (if charge_request_r1 dr voltage ≠ .success
     then [Problem.setVoltage] else []) ++
    (if charge_request_r3 cfg chip dr voltage current ≠ .success
     then [Problem.cfgSecChg] else []) ++
    (if dr.setModeRes ≠ .success then [Problem.setMode] else [])

/-- `charge_request(voltage, current)`: ask the charger for some voltage
and current. If either value is 0, charging is disabled; negative values
are ignored. `prevVolt`/`prevCurr` are the static previous committed
values; `dr` holds the driver results of this tick's sub-operations. -/
def charge_request (cfg : Config) (env : ChgReqEnv) (chip : ActiveChgChip)
    (dr : ChgDrvResults) (prevVolt prevCurr : Int) (voltage current : Int) :
    ChgReqResult :=
  let vc := charge_request_disable_values cfg env voltage current
  let voltage := vc.1
  let current := vc.2
  let trace := charge_request_ops cfg env chip voltage current
  let problems := charge_request_problem_list cfg chip dr voltage current
  -- Only update if the request worked, so we'll keep trying on failures.
  let ret := charge_request_ret cfg chip dr voltage current
  if ret = .success then
    { ret := ret, effVoltage := voltage, effCurrent := current,
      prevVolt := voltage, prevCurr := current, trace := trace,
      problems := problems,
      stableReset := cfg.preferMV &&
        (decide (prevVolt ≠ voltage) || decide (prevCurr ≠ current)) }
  else
    { ret := ret, effVoltage := voltage, effCurrent := current,
      prevVolt := prevVolt, prevCurr := prevCurr, trace := trace,
      problems := problems, stableReset := false }

/-! ## The charging task: per-tick state and decision loop -/

/-- `(unsigned)x` for a 32-bit int `x`. -/
def toUInt32Nat (x : Int) : Nat := (x % 4294967296).toNat

/-- Reading a 32-bit unsigned value back as a signed int. -/
def toInt32 (n : Nat) : Int :=
  let m := n % 4294967296
  if m < 2147483648 then (m : Int) else (m : Int) - 4294967296

/-- The charging task's persistent state: the `curr` snapshot fields the
modelled span reads or writes, plus the file-level static variables. -/
structure CSState where
  curr_state : ChargeState
  prev_state : ChargeState
  requested_voltage : Int
  requested_current : Int
  batt : BattParams
  batt_is_charging : Bool
  battery_seems_dead : Bool
  battery_seems_disconnected : Bool
  battery_was_removed : Bool
  shutdown_target_time : Nat
  precharge_start_time : Nat
  ctrl : CtrlState
  band : SustainSoc
  user_current_limit : Nat
  current_limit_value : Nat
  current_limit_soc : Int
  calc_full_ret : Bool
  is_full : Bool
  prev_full : Bool
deriving DecidableEq, Repr

/-- Oracles read during one tick of the charging task: telemetry, clock,
chipset state, and driver/board collaborator answers. -/
structure TickEnv where
  ac : Bool
  batt : BattParams
  chgBadAny : Bool
  dispCharge : Int
  now : Nat
  disconnected : Bool
  chipset : Chipset
  boardAction : CriticalShutdown
  battCutOff : Bool
  battInfo : BatteryInfo
  chargerInfo : ChargerInfo
  closestVoltage : Int → Int
  closestCurrent : Int → Int
  drvDischargeRes : EcRes
  levelShutdown : Int
  timeoutUs : Nat
  prechargeTimeoutUs : Nat
  lowVoltageTimeoutUs : Nat

/-- `set_charge_state(state)`. -/
def set_charge_state (s : CSState) (st : ChargeState) : CSState :=
  { s with prev_state := s.curr_state, curr_state := st }

/-- `wakeup_battery(&need_static)`: enter (or give up on) the precharge
wake-up sub-state for an unresponsive battery. Returns the updated state
and the `need_static` flag. -/
def wakeup_battery (env : TickEnv) (s : CSState) : CSState × Bool :=
  if s.battery_seems_dead || env.battCutOff then
    -- It's dead, do nothing.
    let s := set_charge_state s .idle
    ({ s with requested_voltage := 0, requested_current := 0 }, false)
  else if s.curr_state = .precharge ∧
      s.precharge_start_time + env.prechargeTimeoutUs < env.now then
    -- We've tried long enough, give up.
    let s := set_charge_state { s with battery_seems_dead := true } .idle
    ({ s with requested_voltage := 0, requested_current := 0 }, false)
  else
    -- See if we can wake it up.
    let sn :=
      if s.curr_state ≠ .precharge then
        ({ s with precharge_start_time := env.now }, true)
      else (s, false)
    let s := set_charge_state sn.1 .precharge
    ({ s with requested_voltage := env.battInfo.voltage_max,
              requested_current := env.battInfo.precharge_current }, sn.2)

/-- `deep_charge_battery(&need_static)`: precharge sub-state for a battery
below its minimum voltage (`CONFIG_BATTERY_LOW_VOLTAGE_PROTECTION`). -/
def deep_charge_battery (env : TickEnv) (s : CSState) : CSState × Bool :=
  if s.curr_state = .idle ∧ s.batt.flags.deepCharge then
    -- Deep charge timed out, do nothing.
    ({ s with requested_voltage := 0, requested_current := 0 }, false)
  else if s.curr_state = .precharge ∧
      s.precharge_start_time + env.lowVoltageTimeoutUs < env.now then
    -- We've tried long enough, give up.
    let s := set_charge_state s .idle
    ({ s with requested_voltage := 0, requested_current := 0 }, false)
  else
    -- See if we can wake it up.
    let sn :=
      if s.curr_state ≠ .precharge then
        ({ s with precharge_start_time := env.now }, true)
      else (s, false)
    let s := set_charge_state sn.1 .precharge
    ({ s with requested_voltage := env.battInfo.voltage_max,
              requested_current := env.battInfo.precharge_current,
              batt := { s.batt with
                        flags := { s.batt.flags with deepCharge := true } } },
     sn.2)

/-- `revive_battery(&need_static)`: force a nominal precharge request for
a battery that reports zero request while fully discharged or
disconnected; otherwise refresh static info on a transition into the
charging branch. -/
def revive_battery (cfg : Config) (env : TickEnv) (s : CSState) :
    CSState × Bool :=
  let sn :=
    if cfg.nilWhenDead ∧ s.requested_voltage = 0 ∧ s.requested_current = 0 ∧
        s.batt.state_of_charge = 0 then
      -- Battery is dead, give precharge current.
      ({ s with requested_voltage := env.battInfo.voltage_max,
                requested_current := env.battInfo.precharge_current }, false)
    else if cfg.reviveDisconnect ∧ s.requested_voltage = 0 ∧
        s.requested_current = 0 ∧ s.battery_seems_disconnected then
      -- Battery is in disconnect state; apply a current to kick it out.
      ({ s with requested_voltage := env.battInfo.voltage_max,
                requested_current := env.battInfo.precharge_current }, false)
    else if s.curr_state = .precharge ∨ s.battery_seems_dead ∨
        s.battery_was_removed then
      -- Battery woke up: update the battery-specific values.
      (s, true)
    else (s, false)
  ({ sn.1 with battery_seems_dead := false, battery_was_removed := false },
   sn.2)

/-- Outcome of `decide_charge_state`. -/
structure DecideOut where
  s : CSState
  battery_critical : Bool
  need_static : Bool
  effects : List Effect
  problems : List Problem

/-- `decide_charge_state(&need_static, &battery_critical)`: decide on the
charge state for this tick. -/
def decide_charge_state (cfg : Config) (env : TickEnv) (s : CSState) :
    DecideOut :=
  -- If we *know* there's no battery, wait for one to appear.
  if s.batt.is_present = .no then
    let s := set_charge_state s .idle
    let s := { s with batt_is_charging := false, battery_was_removed := true }
    { s := s, battery_critical := false, need_static := false, effects := [],
      problems := [] }
  else
    -- Always check the disconnect state if the battery is present.
    let s := { s with battery_seems_disconnected := env.disconnected }
    let problems :=
      (if env.chgBadAny then [Problem.chgFlags] else []) ++
        (if s.batt.flags.badAny then [Problem.battFlags] else [])
    -- If AC is present, check if input current can actually charge.
    let s := { s with batt_is_charging := env.ac && decide (0 ≤ s.batt.current) }
    -- Don't let the battery hurt itself.
    let crit := is_battery_critical s.batt env.battInfo env.ac
      s.batt_is_charging env.levelShutdown
    let mon := shutdown_on_critical_battery cfg crit
      ⟨env.now, env.timeoutUs, env.chipset, env.boardAction⟩
      s.shutdown_target_time
    let s := { s with shutdown_target_time := mon.2.1 }
    if !env.ac then
      { s := set_charge_state s .discharge, battery_critical := mon.1,
        need_static := false, effects := mon.2.2, problems := problems }
    else if s.ctrl.chg_ctl_mode ≠ CHARGE_CONTROL_NORMAL then
      -- Used for factory tests.
      { s := set_charge_state s .idle, battery_critical := mon.1,
        need_static := false, effects := mon.2.2, problems := problems }
    else if !s.batt.flags.responsive then
      -- If the battery is not responsive, try to wake it up.
      let w := wakeup_battery env s
      { s := w.1, battery_critical := mon.1, need_static := w.2,
        effects := mon.2.2, problems := problems }
    else if cfg.lowVoltageProtection ∧ !s.batt.flags.badVoltage ∧
        s.batt.voltage ≤ env.battInfo.voltage_min then
      -- Battery voltage below voltage_min: precharge first to protect it.
      let d := deep_charge_battery env s
      { s := d.1, battery_critical := mon.1, need_static := d.2,
        effects := mon.2.2, problems := problems }
    else
      -- Finished deep charge before timeout: clear the flag.
      let s :=
        if cfg.lowVoltageProtection ∧ s.batt.flags.deepCharge then
          { s with batt := { s.batt with
                             flags := { s.batt.flags with
                                        deepCharge := false } } }
        else s
      -- The battery is responding. Yay. Try to use it.
      let r := revive_battery cfg env s
      { s := set_charge_state r.1 .charge, battery_critical := mon.1,
        need_static := r.2, effects := mon.2.2, problems := problems }

/-- Outcome of one modelled tick of `charger_task`. -/
structure TickOut where
  s : CSState
  battery_critical : Bool
  effects : List Effect
  problems : List Problem

/-- Tick phase: refresh `curr.batt` and pass along whatever the battery
wants, unless its desired-value readings are bad. -/
def tick_refresh_request (env : TickEnv) (s0 : CSState) : CSState :=
  let s := { s0 with batt := env.batt }
  if s.batt.flags.badDesiredVoltage || s.batt.flags.badDesiredCurrent then
    { s with requested_voltage := 0, requested_current := 0 }
  else
    { s with requested_voltage := s.batt.desired_voltage,
             requested_current := s.batt.desired_current }

/-- Tick phase: `is_full = calc_is_full()` (including the static memory of
`calc_is_full`). -/
def tick_calc_is_full (s : CSState) : CSState :=
  let fullRet :=
    if s.batt.flags.badStateOfCharge || decide (100 < s.batt.state_of_charge)
    then s.calc_full_ret
    else decide (90 ≤ s.batt.state_of_charge) &&
      decide (s.batt.desired_current = 0)
  { s with calc_full_ret := fullRet, is_full := fullRet }

/-- Tick phase: run the battery sustainer. -/
def tick_sustain (cfg : Config) (env : TickEnv) (s : CSState) : CSState :=
  { s with ctrl := sustain_battery_soc cfg env.ac s.batt.is_present
             env.dispCharge env.drvDischargeRes s.band s.ctrl }

/-- Tick phase: `current_limit_battery_soc()`. -/
def tick_current_limit_soc (env : TickEnv) (s : CSState) : CSState :=
  if s.user_current_limit ≠ s.current_limit_value ∧
      s.current_limit_soc ≤ Int.tdiv env.dispCharge 10 then
    { s with user_current_limit := s.current_limit_value }
  else s

/-- Tick phase: turn the charger off if it's not needed
(`!CONFIG_CHARGER_MAINTAIN_VBAT`). -/
def tick_turn_off (s : CSState) : CSState :=
  if s.curr_state = .idle ∨ s.curr_state = .discharge then
    { s with requested_voltage := 0, requested_current := 0 }
  else s

/-- Tick phase: apply the external user current limit (the signed request
is compared against the unsigned limit, C conversion semantics). -/
def tick_user_limit (s : CSState) : CSState :=
  if s.user_current_limit < toUInt32Nat s.requested_current then
    { s with requested_current := toInt32 s.user_current_limit }
  else s

/-- Tick phase: round the request to charger-supported values. -/
def tick_round (env : TickEnv) (s : CSState) : CSState :=
  { s with requested_voltage := env.closestVoltage s.requested_voltage,
           requested_current := env.closestCurrent s.requested_current }

/-- Tick phase: the charger only accepts requests when AC is on — zero the
request for a cut-off battery, apply manual overrides, or (on battery)
hold a voltage floor above the battery with current -1. -/
def tick_ac_adjust (env : TickEnv) (s : CSState) : CSState :=
  if env.ac then
    if env.battCutOff then
      { s with requested_voltage := 0, requested_current := 0 }
    else
      let s :=
        if s.ctrl.manual_voltage ≠ -1 then
          { s with requested_voltage := s.ctrl.manual_voltage }
        else s
      if s.ctrl.manual_current ≠ -1 then
        { s with requested_current := s.ctrl.manual_current }
      else s
  else
    { s with requested_voltage :=
               env.closestVoltage (s.batt.voltage +
                 env.chargerInfo.voltage_step),
             requested_current := -1 }

/-- One tick of `charger_task`, from refreshing the battery telemetry and
computing the default request through the final clamp/round/override
pipeline, in the default configuration of the spec (no
`CONFIG_CHARGER_MAINTAIN_VBAT`, single battery, no profile override, no
charge-temperature limits). The resulting `requested_voltage` and
`requested_current` are the values handed to `charge_request`. -/
def charger_task_tick (cfg : Config) (env : TickEnv) (s0 : CSState) :
    TickOut :=
  let d := decide_charge_state cfg env (tick_refresh_request env s0)
  let s := tick_current_limit_soc env
    (tick_sustain cfg env (tick_calc_is_full d.s))
  let s := { s with prev_full := s.is_full }
  let s := tick_ac_adjust env (tick_round env (tick_user_limit
    (tick_turn_off s)))
  { s := s, battery_critical := d.battery_critical, effects := d.effects,
    problems := d.problems }

/-- The tick state just before the turn-off/clamp/round/override steps
(definitionally the intermediate `s` of `charger_task_tick`). -/
def tick_mid (cfg : Config) (env : TickEnv) (s0 : CSState) : CSState :=
  let d := decide_charge_state cfg env (tick_refresh_request env s0)
  let s := tick_current_limit_soc env
    (tick_sustain cfg env (tick_calc_is_full d.s))
  { s with prev_full := s.is_full }

/-- The sustain-band invariant: a valid percentage band, or both bounds
-1 meaning disabled. -/
def sustain_soc_inv (b : SustainSoc) : Prop :=
  (0 ≤ b.lower ∧ b.lower ≤ b.upper ∧ b.upper ≤ 100) ∨
    (b.lower = -1 ∧ b.upper = -1)

/-- Example configuration: a `CONFIG_CHARGER_DISCHARGE_ON_AC` build (the
sustainer's prerequisite), no NVDC/OCPC/PD-prefer-mV. -/
def exConfig : Config :=
  ⟨true, false, false, false, true, true, false, false, false⟩

/-- Example configuration: like `exConfig` but for an NVDC charger
(`CONFIG_CHARGER_NARROW_VDC`). -/
def exConfigNvdc : Config :=
  ⟨true, true, false, false, true, true, false, false, false⟩

/-- Example `charge_request` environment for concrete evaluations:
battery at 7000 mV, not full, 16 mV charger voltage step, identity
rounding, bypass status consistent. -/
def exChgEnv : ChgReqEnv :=
  { battVoltage := 7000, isFull := false,
    battInfo := ⟨8700, 7600, 6000, 200, 0, 60⟩, chargerInfo := ⟨16⟩,
    closestVoltage := fun v => v, shouldBypass := false,
    statusBypassOn := false }

/-- Example driver results: the set-voltage operation fails, the rest
succeed. -/
def exDrvVoltFail : ChgDrvResults :=
  { setCurrentRes := .success, setVoltageRes := .err,
    setModeRes := .success, cfgSecRes := .success }

/-- Example battery telemetry for an absent battery: all readings bad. -/
def exBattAbsent : BattParams :=
  ⟨0, 0, 0, 0, 0, 0, .no, ⟨true, true, true, true, true, true, false, false⟩⟩

/-- Example tick environment with no external power and an absent
battery. -/
def exTickEnvNoAC : TickEnv :=
  { ac := false, batt := exBattAbsent, chgBadAny := false, dispCharge := 0,
    now := 1000, disconnected := false, chipset := ⟨true, false, false⟩,
    boardAction := .ignore, battCutOff := false,
    battInfo := ⟨8700, 7600, 6000, 200, 0, 60⟩, chargerInfo := ⟨16⟩,
    closestVoltage := fun v => v, closestCurrent := fun c => c,
    drvDischargeRes := .success, levelShutdown := 3, timeoutUs := 30000000,
    prechargeTimeoutUs := 30000000, lowVoltageTimeoutUs := 30000000 }

/-- Example tick environment: like `exTickEnvNoAC` but on AC power. -/
def exTickEnvAC : TickEnv := { exTickEnvNoAC with ac := true }

/-- Example pre-tick charging-task state: charging normally, no manual
overrides, sustainer disabled, no user current limit. -/
def exCSState : CSState :=
  { curr_state := .charge, prev_state := .charge, requested_voltage := 8700,
    requested_current := 2000, batt := exBattAbsent,
    batt_is_charging := true, battery_seems_dead := false,
    battery_seems_disconnected := false, battery_was_removed := false,
    shutdown_target_time := 0, precharge_start_time := 0,
    ctrl := ⟨CHARGE_CONTROL_NORMAL, -1, -1⟩, band := ⟨-1, -1⟩,
    user_current_limit := 4294967295, current_limit_value := 4294967295,
    current_limit_soc := 0, calc_full_ret := false, is_full := false,
    prev_full := false }

/-! ## Helper lemmas -/

theorem tdiv128_nonneg {a : Int} (h : 0 ≤ a) : 0 ≤ Int.tdiv a 128 :=
  Int.tdiv_nonneg h (by norm_num)

theorem tdiv128_le {a b : Int} (ha : 0 ≤ a) (h : a ≤ 128 * b) :
    Int.tdiv a 128 ≤ b := by
  have hb : 0 ≤ b := by nlinarith
  rw [Int.tdiv_eq_ediv ha (by norm_num)]
  omega

/-- Single `CHG_ALLOCATE` step facts: with a nonnegative budget and
request, the allocated amount is nonnegative, at most the budget, and the
budget stays nonnegative. -/
theorem chgAllocate_step (p total v : Int) (h0 : 0 ≤ total) (hv : 0 ≤ v) :
    0 ≤ (chgAllocate p total v).1 - p ∧
      (chgAllocate p total v).1 - p ≤ total ∧
      0 ≤ (chgAllocate p total v).2 := by
  simp only [chgAllocate]; omega

theorem allocate_trace_mem (reqs : List Int) (total : Int) (h0 : 0 ≤ total)
    (hreq : ∀ v ∈ reqs, 0 ≤ v) :
    ∀ p ∈ allocate_trace total reqs, 0 ≤ p.1 ∧ p.1 ≤ p.2 ∧ 0 ≤ p.2 - p.1 := by
  induction reqs generalizing total with
  | nil => simp [allocate_trace]
  | cons v vs ih =>
    intro p hp
    have hv : 0 ≤ v := hreq v (by simp)
    simp only [allocate_trace, List.mem_cons] at hp
    rcases hp with rfl | hp
    · simp only [chgAllocate]; omega
    · have h0' : 0 ≤ (chgAllocate 0 total v).2 := by
        simp only [chgAllocate]; omega
      exact ih _ h0' (fun w hw => hreq w (by simp [hw])) p hp

theorem allocate_trace_sum (reqs : List Int) (total : Int) (h0 : 0 ≤ total)
    (hreq : ∀ v ∈ reqs, 0 ≤ v) :
    ((allocate_trace total reqs).map Prod.fst).sum = min total reqs.sum := by
  induction reqs generalizing total with
  | nil => simp [allocate_trace]; omega
  | cons v vs ih =>
    have hv : 0 ≤ v := hreq v (by simp)
    have hsum : 0 ≤ vs.sum :=
      List.sum_nonneg (fun w hw => hreq w (by simp [hw]))
    simp only [allocate_trace, List.map_cons, List.sum_cons]
    rw [ih _ (by simp only [chgAllocate]; omega)
        (fun w hw => hreq w (by simp [hw]))]
    simp only [chgAllocate, List.sum_cons]
    omega

theorem allocate_rest_nonneg (reqs : List Int) (total : Int) (h0 : 0 ≤ total)
    (hreq : ∀ v ∈ reqs, 0 ≤ v) : 0 ≤ allocate_rest total reqs := by
  induction reqs generalizing total with
  | nil => simpa [allocate_rest] using h0
  | cons v vs ih =>
    have hv : 0 ≤ v := hreq v (by simp)
    simp only [allocate_rest]
    exact ih _ (by simp only [chgAllocate]; omega)
      (fun w hw => hreq w (by simp [hw]))

/-! ## Claim theorems -/

/-- C8 counterexample: the claim says that whenever `curr ≥ prev` the
result of `smooth(prev, curr, s)` equals `curr` exactly; but
`smooth_value(100, 200, 32) = 125 ≠ 200`. -/
theorem c8_counterexample : ¬ (smooth_value 100 200 32 = 200) := by decide

/-- C8 (amended): `smooth_value` itself blends in both directions; the
claimed property holds for the guarded update applied at the battery-power
call sites of `base_charge_allocate_input_current_limit`, where smoothing
runs only when the new estimate is below the previous one. For nonnegative
`prev`, `curr` and a smoothing factor `0 ≤ s ≤ 128`: if `curr ≥ prev` the
result is exactly `curr` (no smoothing on a rising value), and if
`curr < prev` the result moves monotonically toward `curr`, staying in
`[curr, prev]`. -/
theorem c8_smooth_monotone (prev curr s : Int) (hp : 0 ≤ prev)
    (hc : 0 ≤ curr) (hs0 : 0 ≤ s) (hs : s ≤ 128) :
    (prev ≤ curr → battery_power_update prev curr s = curr) ∧
      (curr < prev → curr ≤ battery_power_update prev curr s ∧
        battery_power_update prev curr s ≤ prev) := by
  constructor
  · intro h
    simp [battery_power_update, not_lt.2 h]
  · intro h
    have hne : ¬ prev < 0 := not_lt.2 hp
    have hcc : ¬ curr < 0 := not_lt.2 hc
    simp only [battery_power_update, if_pos h, smooth_value, if_neg hcc,
      if_neg hne]
    have hrw : s * (curr - prev) = -(s * (prev - curr)) := by ring
    rw [hrw, Int.neg_tdiv]
    have h1 : 0 ≤ Int.tdiv (s * (prev - curr)) 128 :=
      tdiv128_nonneg (by nlinarith)
    have h2 : Int.tdiv (s * (prev - curr)) 128 ≤ prev - curr :=
      tdiv128_le (by nlinarith) (by nlinarith)
    omega

/-- C8 witness. -/
theorem c8_smooth_monotone_witness :
    (0 : Int) ≤ 100 ∧ (0 : Int) ≤ 40 ∧ (0 : Int) ≤ 32 ∧ (32 : Int) ≤ 128 ∧
      (40 : Int) < 100 ∧ 40 ≤ battery_power_update 100 40 32 ∧
      battery_power_update 100 40 32 ≤ 100 :=
  ⟨by decide, by decide, by decide, by decide, by decide,
   (c8_smooth_monotone 100 40 32 (by decide) (by decide) (by decide)
     (by decide)).2 (by decide)⟩

/-- C5: in the dual-battery charging branch, for a nonnegative budget and
nonnegative requested amounts, every `CHG_ALLOCATE` step allocates at most
the budget remaining before it, the remaining budget never becomes
negative, and the total allocated equals `min(B, sum of requests)`. -/
theorem c5_chg_allocate (total : Int) (reqs : List Int) (h0 : 0 ≤ total)
    (hreq : ∀ v ∈ reqs, 0 ≤ v) :
    (∀ p ∈ allocate_trace total reqs,
        0 ≤ p.1 ∧ p.1 ≤ p.2 ∧ 0 ≤ p.2 - p.1) ∧
      ((allocate_trace total reqs).map Prod.fst).sum = min total reqs.sum ∧
      0 ≤ allocate_rest total reqs :=
  ⟨allocate_trace_mem reqs total h0 hreq,
   allocate_trace_sum reqs total h0 hreq,
   allocate_rest_nonneg reqs total h0 hreq⟩

/-- C5 witness: the budget 1000 is smaller than the sum of the requests
1300 + 400 + 200. -/
theorem c5_chg_allocate_witness :
    (0 : Int) ≤ 1000 ∧
      ((allocate_trace 1000 [(1300 : Int), 400, 200]).map Prod.fst).sum =
        min 1000 [(1300 : Int), 400, 200].sum ∧
      0 ≤ allocate_rest 1000 [1300, 400, 200] :=
  ⟨by decide,
   (c5_chg_allocate 1000 [1300, 400, 200] (by decide) (by decide)).2.1,
   (c5_chg_allocate 1000 [1300, 400, 200] (by decide) (by decide)).2.2⟩

theorem shutdown_critical_keeps_target (cfg : Config) (e : CritEnv)
    (target : Nat) (h : target ≠ 0) :
    (shutdown_on_critical_battery cfg true e target).2.1 = target := by
  unfold shutdown_on_critical_battery
  simp only [Bool.not_true, Bool.false_eq_true, if_false, if_neg h]
  split_ifs <;> rfl

theorem critical_countdown_run_ne_zero (cfg : Config)
    (ticks : List (Bool × CritEnv)) (target : Nat) (h : target ≠ 0)
    (hc : ∀ t ∈ ticks, t.1 = true) :
    critical_countdown_run cfg target ticks ≠ 0 := by
  induction ticks generalizing target with
  | nil => simpa [critical_countdown_run] using h
  | cons t ts ih =>
    obtain ⟨c, e⟩ := t
    have hc1 : c = true := hc (c, e) (List.mem_cons_self _ _)
    subst hc1
    simp only [critical_countdown_run,
      shutdown_critical_keeps_target cfg e target h]
    exact ih target h (fun u hu => hc u (by simp [hu]))

/-- C4: each tick, the critical-battery monitor resets the countdown to
"not started" exactly when the telemetry is not critical; and once
started, a run of ticks that all observe critical readings never brings
the countdown back to "not started". -/
theorem c4_countdown_reset (cfg : Config) (b : BattParams)
    (info : BatteryInfo) (ac chging : Bool) (lvl : Int) (env : CritEnv)
    (target : Nat) (ht : 0 < env.timeoutUs) :
    ((shutdown_on_critical_battery cfg
        (is_battery_critical b info ac chging lvl) env target).2.1 = 0 ↔
      is_battery_critical b info ac chging lvl = false) ∧
    (∀ ticks : List (Bool × CritEnv), (∀ t ∈ ticks, t.1 = true) →
      target ≠ 0 → critical_countdown_run cfg target ticks ≠ 0) := by
  constructor
  · cases hcrit : is_battery_critical b info ac chging lvl with
    | false => simp [shutdown_on_critical_battery]
    | true =>
      simp only [Bool.true_eq_false, iff_false]
      by_cases h0 : target = 0
      · subst h0
        unfold shutdown_on_critical_battery
        simp only [Bool.not_true, Bool.false_eq_true, if_false, if_pos rfl]
        intro hx
        simp at hx
        omega
      · rw [shutdown_critical_keeps_target cfg env target h0]
        exact h0
  · intro ticks hticks h0
    exact critical_countdown_run_ne_zero cfg ticks target h0 hticks

/-- C4 witness: a critical tick (battery too hot, good reading) with the
countdown already started, and a two-tick critical run from a started
countdown. -/
theorem c4_countdown_reset_witness :
    (0 : Nat) < 30000000 ∧
    (((shutdown_on_critical_battery
        ⟨true, false, false, false, true, true, false, false, false⟩
        (is_battery_critical
          ⟨3431, 50, 7000, 100, 8700, 2000, .yes,
           ⟨false, false, false, false, false, false, true, false⟩⟩
          ⟨8700, 7600, 6000, 200, 0, 60⟩ true false 3)
        ⟨5000, 30000000, ⟨false, false, false⟩, .ignore⟩ 100).2.1 = 0 ↔
      is_battery_critical
        ⟨3431, 50, 7000, 100, 8700, 2000, .yes,
         ⟨false, false, false, false, false, false, true, false⟩⟩
        ⟨8700, 7600, 6000, 200, 0, 60⟩ true false 3 = false) ∧
    critical_countdown_run
        ⟨true, false, false, false, true, true, false, false, false⟩ 100
        [(true, ⟨5000, 30000000, ⟨false, false, false⟩, .ignore⟩),
         (true, ⟨99999999, 30000000, ⟨true, false, false⟩, .ignore⟩)] ≠ 0) :=
  ⟨by decide,
   (c4_countdown_reset
     ⟨true, false, false, false, true, true, false, false, false⟩
     ⟨3431, 50, 7000, 100, 8700, 2000, .yes,
      ⟨false, false, false, false, false, false, true, false⟩⟩
     ⟨8700, 7600, 6000, 200, 0, 60⟩ true false 3
     ⟨5000, 30000000, ⟨false, false, false⟩, .ignore⟩ 100 (by decide)).1,
   (c4_countdown_reset
     ⟨true, false, false, false, true, true, false, false, false⟩
     ⟨3431, 50, 7000, 100, 8700, 2000, .yes,
      ⟨false, false, false, false, false, false, true, false⟩⟩
     ⟨8700, 7600, 6000, 200, 0, 60⟩ true false 3
     ⟨5000, 30000000, ⟨false, false, false⟩, .ignore⟩ 100 (by decide)).2
     [(true, ⟨5000, 30000000, ⟨false, false, false⟩, .ignore⟩),
      (true, ⟨99999999, 30000000, ⟨true, false, false⟩, .ignore⟩)]
     (by decide) (by decide)⟩

/-- C3: once the critical countdown has expired on a critical tick, the
monitor executes the board-configured action (ignore / hibernate /
cut-off) when the AP is off or transitioning to off — never a forced
shutdown; when the AP is not (transitioning to) off it forces an AP
shutdown instead and takes no battery action. -/
theorem c3_critical_expiry (cfg : Config) (crit : Bool) (env : CritEnv)
    (target : Nat) (hc : crit = true) (hstarted : target ≠ 0)
    (hexpired : target ≤ env.now) :
    (env.chipset.inOrTransitioningToOff = true →
      (shutdown_on_critical_battery cfg crit env target).2.2 =
        (match env.boardAction with
         | .hibernate => if cfg.hibernateBuilt then [Effect.hibernate] else []
         | .cutoff => [Effect.cutoff]
         | .ignore => []) ∧
      Effect.forceShutdown ∉
        (shutdown_on_critical_battery cfg crit env target).2.2) ∧
    (env.chipset.inOrTransitioningToOff = false →
      (shutdown_on_critical_battery cfg crit env target).2.2 =
        [Effect.forceShutdown]) := by
  subst hc
  unfold shutdown_on_critical_battery
  simp only [Bool.not_true, Bool.false_eq_true, if_false, if_neg hstarted,
    if_neg (by omega : ¬ env.now < target)]
  constructor
  · intro hoff
    rw [if_pos hoff]
    refine ⟨rfl, ?_⟩
    cases env.boardAction
    · simp
    · split_ifs <;> simp
    · simp
  · intro hon
    rw [if_neg (by simp [hon])]

/-- C3 witness: expired countdown, AP off, board action cut-off. -/
theorem c3_critical_expiry_witness :
    (100 : Nat) ≠ 0 ∧ (100 : Nat) ≤ 5000 ∧
    (shutdown_on_critical_battery
        ⟨true, false, false, false, true, true, false, false, false⟩ true
        ⟨5000, 30000000, ⟨true, false, false⟩, .cutoff⟩ 100).2.2 =
      [Effect.cutoff] ∧
    Effect.forceShutdown ∉
      (shutdown_on_critical_battery
        ⟨true, false, false, false, true, true, false, false, false⟩ true
        ⟨5000, 30000000, ⟨true, false, false⟩, .cutoff⟩ 100).2.2 :=
  ⟨by decide, by decide,
   ((c3_critical_expiry
     ⟨true, false, false, false, true, true, false, false, false⟩ true
     ⟨5000, 30000000, ⟨true, false, false⟩, .cutoff⟩ 100 rfl (by decide)
     (by decide)).1 rfl).1,
   ((c3_critical_expiry
     ⟨true, false, false, false, true, true, false, false, false⟩ true
     ⟨5000, 30000000, ⟨true, false, false⟩, .cutoff⟩ 100 rfl (by decide)
     (by decide)).1 rfl).2⟩

/-- C9: every entry point that modifies the sustain band —
`battery_sustainer_set` (host charge-control command), the console
`chgstate sustain` command (int8-truncated arguments), the version-2 host
`SET` path, and `battery_sustainer_disable` (initialization) — preserves
the invariant `0 ≤ lower ≤ upper ≤ 100 ∨ lower = upper = -1`; and a
rejected input leaves the band unchanged. -/
theorem c9_sustain_band_inv (d : Bool) (lower upper : Int) (mode : Nat)
    (band : SustainSoc) (h : sustain_soc_inv band) :
    sustain_soc_inv (battery_sustainer_set d lower upper band).2 ∧
    sustain_soc_inv (command_chgstate_sustain d lower upper band).2 ∧
    sustain_soc_inv (charge_control_set_band d mode lower upper band) ∧
    sustain_soc_inv (battery_sustainer_disable d band) ∧
    ((battery_sustainer_set d lower upper band).1 ≠ .success →
      (battery_sustainer_set d lower upper band).2 = band) := by
  have hset : ∀ l u : Int, sustain_soc_inv (battery_sustainer_set d l u band).2 := by
    intro l u
    unfold battery_sustainer_set
    split_ifs with h1 h2 h3
    · exact Or.inr ⟨rfl, rfl⟩
    · exact h
    · exact Or.inl ⟨show (0 : Int) ≤ l by omega, show l ≤ u by omega,
        show u ≤ (100 : Int) by omega⟩
    · exact h
  refine ⟨hset lower upper, hset _ _, ?_, hset _ _, ?_⟩
  · unfold charge_control_set_band battery_sustainer_disable
    split_ifs <;> exact hset _ _
  · unfold battery_sustainer_set
    split_ifs with h1 h2 h3 <;> simp

/-- C9 witness: an in-range request on a disabled band. -/
theorem c9_sustain_band_inv_witness :
    sustain_soc_inv ⟨-1, -1⟩ ∧
    sustain_soc_inv (battery_sustainer_set true 80 90 ⟨-1, -1⟩).2 ∧
    sustain_soc_inv (command_chgstate_sustain true 80 90 ⟨-1, -1⟩).2 ∧
    sustain_soc_inv (charge_control_set_band true 0 80 90 ⟨-1, -1⟩) ∧
    sustain_soc_inv (battery_sustainer_disable true ⟨-1, -1⟩) :=
  ⟨Or.inr ⟨rfl, rfl⟩,
   (c9_sustain_band_inv true 80 90 0 ⟨-1, -1⟩ (Or.inr ⟨rfl, rfl⟩)).1,
   (c9_sustain_band_inv true 80 90 0 ⟨-1, -1⟩ (Or.inr ⟨rfl, rfl⟩)).2.1,
   (c9_sustain_band_inv true 80 90 0 ⟨-1, -1⟩ (Or.inr ⟨rfl, rfl⟩)).2.2.1,
   (c9_sustain_band_inv true 80 90 0 ⟨-1, -1⟩ (Or.inr ⟨rfl, rfl⟩)).2.2.2.1⟩

/-- C2 counterexample: with the sustainer band [80, 90], AC and battery
present, starting in NORMAL mode, the SoC sequence 70, 85, 95, 82 does
NOT produce the mode sequence NORMAL, NORMAL, DISCHARGE, NORMAL claimed:
82 is not below the lower bound 80, so the fourth mode stays DISCHARGE. -/
theorem c2_counterexample :
    sustain_run exConfig true .yes .success ⟨80, 90⟩
        ⟨CHARGE_CONTROL_NORMAL, -1, -1⟩ [700, 850, 950, 820] ≠
      [CHARGE_CONTROL_NORMAL, CHARGE_CONTROL_NORMAL,
       CHARGE_CONTROL_DISCHARGE, CHARGE_CONTROL_NORMAL] := by decide

/-- C2 (amended): the SoC sequence 70, 85, 95, 82 drives the mode through
NORMAL, NORMAL, DISCHARGE, DISCHARGE (crossing above the upper bound
selects DISCHARGE; returning to NORMAL requires SoC strictly below the
lower bound, e.g. 78); and with band [85, 85] a rising SoC that reaches
exactly 85 selects IDLE, not DISCHARGE. -/
theorem c2_sustainer_modes :
    sustain_run exConfig true .yes .success ⟨80, 90⟩
        ⟨CHARGE_CONTROL_NORMAL, -1, -1⟩ [700, 850, 950, 820] =
      [CHARGE_CONTROL_NORMAL, CHARGE_CONTROL_NORMAL,
       CHARGE_CONTROL_DISCHARGE, CHARGE_CONTROL_DISCHARGE] ∧
    sustain_run exConfig true .yes .success ⟨80, 90⟩
        ⟨CHARGE_CONTROL_NORMAL, -1, -1⟩ [700, 850, 950, 780] =
      [CHARGE_CONTROL_NORMAL, CHARGE_CONTROL_NORMAL,
       CHARGE_CONTROL_DISCHARGE, CHARGE_CONTROL_NORMAL] ∧
    sustain_run exConfig true .yes .success ⟨85, 85⟩
        ⟨CHARGE_CONTROL_NORMAL, -1, -1⟩ [700, 850] =
      [CHARGE_CONTROL_NORMAL, CHARGE_CONTROL_IDLE] := by decide

/-- C10: `set_chg_ctrl_mode` is atomic on error — on any non-success
return the control mode and the manual voltage/current overrides are
unchanged; on success the mode is committed. -/
theorem c10_set_mode_atomic (cfg : Config) (ac : Bool) (drvRes : EcRes)
    (mode : Nat) (s : CtrlState) :
    ((set_chg_ctrl_mode cfg ac drvRes mode s).1 ≠ .success →
      (set_chg_ctrl_mode cfg ac drvRes mode s).2 = s) ∧
    ((set_chg_ctrl_mode cfg ac drvRes mode s).1 = .success →
      (set_chg_ctrl_mode cfg ac drvRes mode s).2.chg_ctl_mode = mode) := by
  unfold set_chg_ctrl_mode
  split_ifs <;> simp_all

/-- C10 witness: an invalid mode (7) is rejected without touching the
state. -/
theorem c10_set_mode_atomic_witness :
    (set_chg_ctrl_mode exConfig true .success 7 ⟨0, -1, -1⟩).1 ≠ .success ∧
    (set_chg_ctrl_mode exConfig true .success 7 ⟨0, -1, -1⟩).2 =
      ⟨0, -1, -1⟩ :=
  ⟨by decide,
   (c10_set_mode_atomic exConfig true .success 7 ⟨0, -1, -1⟩).1 (by decide)⟩

/-! ### `charge_request` characterization lemmas -/

theorem charge_request_trace_eq (cfg : Config) (env : ChgReqEnv)
    (chip : ActiveChgChip) (dr : ChgDrvResults) (pv pc v c : Int) :
    (charge_request cfg env chip dr pv pc v c).trace =
      charge_request_ops cfg env chip
        (charge_request_disable_values cfg env v c).1
        (charge_request_disable_values cfg env v c).2 := by
  simp only [charge_request]
  split <;> rfl

theorem charge_request_problems_eq (cfg : Config) (env : ChgReqEnv)
    (chip : ActiveChgChip) (dr : ChgDrvResults) (pv pc v c : Int) :
    (charge_request cfg env chip dr pv pc v c).problems =
      charge_request_problem_list cfg chip dr
        (charge_request_disable_values cfg env v c).1
        (charge_request_disable_values cfg env v c).2 := by
  simp only [charge_request]
  split <;> rfl

theorem charge_request_eff_eq (cfg : Config) (env : ChgReqEnv)
    (chip : ActiveChgChip) (dr : ChgDrvResults) (pv pc v c : Int) :
    (charge_request cfg env chip dr pv pc v c).effVoltage =
        (charge_request_disable_values cfg env v c).1 ∧
      (charge_request cfg env chip dr pv pc v c).effCurrent =
        (charge_request_disable_values cfg env v c).2 := by
  simp only [charge_request]
  split <;> exact ⟨rfl, rfl⟩

theorem charge_request_ret_field (cfg : Config) (env : ChgReqEnv)
    (chip : ActiveChgChip) (dr : ChgDrvResults) (pv pc v c : Int) :
    (charge_request cfg env chip dr pv pc v c).ret =
      charge_request_ret cfg chip dr
        (charge_request_disable_values cfg env v c).1
        (charge_request_disable_values cfg env v c).2 := by
  simp only [charge_request]
  split <;> rfl

theorem charge_request_prev_of_fail (cfg : Config) (env : ChgReqEnv)
    (chip : ActiveChgChip) (dr : ChgDrvResults) (pv pc v c : Int) :
    (charge_request cfg env chip dr pv pc v c).ret ≠ .success →
      (charge_request cfg env chip dr pv pc v c).prevVolt = pv ∧
      (charge_request cfg env chip dr pv pc v c).prevCurr = pc := by
  simp only [charge_request]
  split <;> intro hne <;> simp_all

theorem mem_ops_setCurrent (cfg : Config) (env : ChgReqEnv)
    (chip : ActiveChgChip) (voltage current ma : Int) :
    ChgOp.setCurrent ma ∈ charge_request_ops cfg env chip voltage current ↔
      setCurrentAttempted cfg chip current = true ∧ ma = current := by
  unfold charge_request_ops
  split_ifs <;> simp_all

theorem mem_ops_setVoltage (cfg : Config) (env : ChgReqEnv)
    (chip : ActiveChgChip) (voltage current mv : Int) :
    ChgOp.setVoltage mv ∈ charge_request_ops cfg env chip voltage current ↔
      0 ≤ voltage ∧ mv = voltage := by
  unfold charge_request_ops
  split_ifs <;> simp_all

theorem mem_ops_cfgSecondary (cfg : Config) (env : ChgReqEnv)
    (chip : ActiveChgChip) (voltage current mv ma : Int) :
    ChgOp.cfgSecondary mv ma ∈
        charge_request_ops cfg env chip voltage current ↔
      cfgSecAttempted cfg chip voltage current = true ∧
        mv = voltage ∧ ma = current := by
  unfold charge_request_ops
  split_ifs <;> simp_all

theorem charge_request_ret_success_iff (cfg : Config)
    (chip : ActiveChgChip) (dr : ChgDrvResults) (voltage current : Int) :
    charge_request_ret cfg chip dr voltage current = .success ↔
      ((setCurrentAttempted cfg chip current = true →
          dr.setCurrentRes = .success) ∧
        (0 ≤ voltage → dr.setVoltageRes = .success) ∧
        (cfgSecAttempted cfg chip voltage current = true →
          dr.cfgSecRes = .success)) := by
  have hsec : cfgSecAttempted cfg chip voltage current = true →
      cfg.ocpc = true := by
    unfold cfgSecAttempted
    intro h
    simp only [Bool.and_eq_true] at h
    exact h.1.1
  unfold charge_request_ret charge_request_r1 charge_request_r2
    charge_request_r3
  by_cases h1 : dr.setVoltageRes = .success <;>
    by_cases h2 : dr.setCurrentRes = .success <;>
      by_cases h3 : dr.cfgSecRes = .success <;>
        split_ifs <;> simp_all

theorem ops_filter_order (cfg : Config) (env : ChgReqEnv)
    (chip : ActiveChgChip) (voltage current : Int) :
    (charge_request_ops cfg env chip voltage current).filter ChgOp.isCV =
      (charge_request_ops cfg env chip voltage current).filter
          ChgOp.isCurrent ++
        (charge_request_ops cfg env chip voltage current).filter
          ChgOp.isVoltage := by
  unfold charge_request_ops
  split_ifs <;>
    simp [ChgOp.isCV, ChgOp.isCurrent, ChgOp.isVoltage, List.filter_append]

/-- C6: for every call with `voltage = 0` or `current = 0`, charging is
disabled: both effective programmed values become 0, or, in the narrow-VDC
variant, the current becomes 0 and the voltage becomes the safe floor
`max(full ? voltage_max : closest(batt + step), voltage_normal)`; and in
every call, among the current/voltage programming operations issued, the
set-current operation precedes the set-voltage operation. -/
theorem c6_charge_request_disable (cfg : Config) (env : ChgReqEnv)
    (chip : ActiveChgChip) (dr : ChgDrvResults) (pv pc v c : Int) :
    ((v = 0 ∨ c = 0) → cfg.nvdc = false →
      (charge_request cfg env chip dr pv pc v c).effVoltage = 0 ∧
      (charge_request cfg env chip dr pv pc v c).effCurrent = 0) ∧
    ((v = 0 ∨ c = 0) → cfg.nvdc = true →
      (charge_request cfg env chip dr pv pc v c).effCurrent = 0 ∧
      (charge_request cfg env chip dr pv pc v c).effVoltage =
        max (if env.isFull then env.battInfo.voltage_max
             else env.closestVoltage (env.battVoltage +
               env.chargerInfo.voltage_step))
          env.battInfo.voltage_normal) ∧
    ((charge_request cfg env chip dr pv pc v c).trace.filter ChgOp.isCV =
      (charge_request cfg env chip dr pv pc v c).trace.filter
          ChgOp.isCurrent ++
        (charge_request cfg env chip dr pv pc v c).trace.filter
          ChgOp.isVoltage) := by
  obtain ⟨hv, hc⟩ := charge_request_eff_eq cfg env chip dr pv pc v c
  refine ⟨?_, ?_, ?_⟩
  · intro hz hnv
    rw [hv, hc]
    unfold charge_request_disable_values
    rw [if_pos hz]
    simp [hnv]
  · intro hz hnv
    rw [hv, hc]
    unfold charge_request_disable_values
    rw [if_pos hz]
    simp [hnv]
  · rw [charge_request_trace_eq]
    exact ops_filter_order cfg env chip _ _

/-- C6 witness: a zero-current request on the NVDC variant. -/
theorem c6_charge_request_disable_witness :
    ((0 : Int) = 0 ∨ (0 : Int) = 0) ∧ exConfigNvdc.nvdc = true ∧
    (charge_request exConfigNvdc exChgEnv .inactive exDrvVoltFail 0 0 8700
        0).effCurrent = 0 ∧
    (charge_request exConfigNvdc exChgEnv .inactive exDrvVoltFail 0 0 8700
        0).effVoltage =
      max (if exChgEnv.isFull then exChgEnv.battInfo.voltage_max
           else exChgEnv.closestVoltage (exChgEnv.battVoltage +
             exChgEnv.chargerInfo.voltage_step))
        exChgEnv.battInfo.voltage_normal ∧
    (charge_request exConfigNvdc exChgEnv .inactive exDrvVoltFail 0 0 8700
        0).trace.filter ChgOp.isCV =
      (charge_request exConfigNvdc exChgEnv .inactive exDrvVoltFail 0 0 8700
          0).trace.filter ChgOp.isCurrent ++
        (charge_request exConfigNvdc exChgEnv .inactive exDrvVoltFail 0 0
            8700 0).trace.filter ChgOp.isVoltage :=
  ⟨Or.inr rfl, rfl,
   ((c6_charge_request_disable exConfigNvdc exChgEnv .inactive exDrvVoltFail
       0 0 8700 0).2.1 (Or.inr rfl) rfl).1,
   ((c6_charge_request_disable exConfigNvdc exChgEnv .inactive exDrvVoltFail
       0 0 8700 0).2.1 (Or.inr rfl) rfl).2,
   (c6_charge_request_disable exConfigNvdc exChgEnv .inactive exDrvVoltFail
       0 0 8700 0).2.2⟩

/-- C7: `charge_request` error handling — the operation sequence does not
depend on driver failures (every applicable sub-operation is attempted
even if an earlier one failed); each failing attempted operation is
recorded in the diagnostic problem ledger; the call returns success
exactly when every attempted mandatory operation (set current, set
voltage, and the OCPC secondary configuration when issued) succeeded —
a set-mode failure alone does not fail the call; and on failure the
committed `prev_volt`/`prev_curr` are left unchanged so the request is
retried next tick. -/
theorem c7_charge_request_errors (cfg : Config) (env : ChgReqEnv)
    (chip : ActiveChgChip) (dr dr' : ChgDrvResults) (pv pc v c : Int) :
    (charge_request cfg env chip dr pv pc v c).trace =
        (charge_request cfg env chip dr' pv pc v c).trace ∧
    (∀ ma : Int,
      ChgOp.setCurrent ma ∈
        (charge_request cfg env chip dr pv pc v c).trace →
      dr.setCurrentRes ≠ .success →
      Problem.setCurrent ∈
        (charge_request cfg env chip dr pv pc v c).problems) ∧
    (∀ mv : Int,
      ChgOp.setVoltage mv ∈
        (charge_request cfg env chip dr pv pc v c).trace →
      dr.setVoltageRes ≠ .success →
      Problem.setVoltage ∈
        (charge_request cfg env chip dr pv pc v c).problems) ∧
    (∀ mv ma : Int,
      ChgOp.cfgSecondary mv ma ∈
        (charge_request cfg env chip dr pv pc v c).trace →
      dr.cfgSecRes ≠ .success →
      Problem.cfgSecChg ∈
        (charge_request cfg env chip dr pv pc v c).problems) ∧
    (dr.setModeRes ≠ .success →
      Problem.setMode ∈
        (charge_request cfg env chip dr pv pc v c).problems) ∧
    ((charge_request cfg env chip dr pv pc v c).ret = .success ↔
      ((∀ ma : Int,
          ChgOp.setCurrent ma ∈
            (charge_request cfg env chip dr pv pc v c).trace →
          dr.setCurrentRes = .success) ∧
        (∀ mv : Int,
          ChgOp.setVoltage mv ∈
            (charge_request cfg env chip dr pv pc v c).trace →
          dr.setVoltageRes = .success) ∧
        (∀ mv ma : Int,
          ChgOp.cfgSecondary mv ma ∈
            (charge_request cfg env chip dr pv pc v c).trace →
          dr.cfgSecRes = .success))) ∧
    ((charge_request cfg env chip dr pv pc v c).ret ≠ .success →
      (charge_request cfg env chip dr pv pc v c).prevVolt = pv ∧
      (charge_request cfg env chip dr pv pc v c).prevCurr = pc) := by
  have htr := charge_request_trace_eq cfg env chip dr pv pc v c
  have htr' := charge_request_trace_eq cfg env chip dr' pv pc v c
  have hpr := charge_request_problems_eq cfg env chip dr pv pc v c
  have hret := charge_request_ret_field cfg env chip dr pv pc v c
  refine ⟨htr.trans htr'.symm, ?_, ?_, ?_, ?_, ?_,
    charge_request_prev_of_fail cfg env chip dr pv pc v c⟩
  · intro ma hmem hfail
    rw [htr, mem_ops_setCurrent] at hmem
    rw [hpr]
    simp [charge_request_problem_list, charge_request_r2, hmem.1, hfail]
  · intro mv hmem hfail
    rw [htr, mem_ops_setVoltage] at hmem
    rw [hpr]
    simp [charge_request_problem_list, charge_request_r1, hmem.1, hfail]
  · intro mv ma hmem hfail
    rw [htr, mem_ops_cfgSecondary] at hmem
    rw [hpr]
    simp [charge_request_problem_list, charge_request_r3, hmem.1, hfail]
  · intro hfail
    rw [hpr]
    simp [charge_request_problem_list, hfail]
  · rw [hret, charge_request_ret_success_iff]
    constructor
    · rintro ⟨ha, hb, hc2⟩
      refine ⟨?_, ?_, ?_⟩
      · intro ma hmem
        rw [htr, mem_ops_setCurrent] at hmem
        exact ha hmem.1
      · intro mv hmem
        rw [htr, mem_ops_setVoltage] at hmem
        exact hb hmem.1
      · intro mv ma hmem
        rw [htr, mem_ops_cfgSecondary] at hmem
        exact hc2 hmem.1
    · rintro ⟨ha, hb, hc2⟩
      refine ⟨?_, ?_, ?_⟩
      · intro hatt
        exact ha _ (by rw [htr, mem_ops_setCurrent]; exact ⟨hatt, rfl⟩)
      · intro hnn
        exact hb _ (by rw [htr, mem_ops_setVoltage]; exact ⟨hnn, rfl⟩)
      · intro hatt
        exact hc2 _ _
          (by rw [htr, mem_ops_cfgSecondary]; exact ⟨hatt, rfl, rfl⟩)

/-- C7 witness: a request whose set-voltage driver call fails — the trace
is unchanged relative to an all-success tick, the failure is recorded,
the call does not return success, and the previous committed values are
kept. -/
theorem c7_charge_request_errors_witness :
    (charge_request exConfig exChgEnv .inactive exDrvVoltFail 8400 2000
        8700 256).trace =
      (charge_request exConfig exChgEnv .inactive
        ⟨.success, .success, .success, .success⟩ 8400 2000 8700 256).trace ∧
    Problem.setVoltage ∈
      (charge_request exConfig exChgEnv .inactive exDrvVoltFail 8400 2000
        8700 256).problems ∧
    (charge_request exConfig exChgEnv .inactive exDrvVoltFail 8400 2000
        8700 256).prevVolt = 8400 ∧
    (charge_request exConfig exChgEnv .inactive exDrvVoltFail 8400 2000
        8700 256).prevCurr = 2000 :=
  ⟨(c7_charge_request_errors exConfig exChgEnv .inactive exDrvVoltFail
      ⟨.success, .success, .success, .success⟩ 8400 2000 8700 256).1,
   (c7_charge_request_errors exConfig exChgEnv .inactive exDrvVoltFail
      ⟨.success, .success, .success, .success⟩ 8400 2000 8700 256).2.2.1
     8700 (by decide) (by decide),
   ((c7_charge_request_errors exConfig exChgEnv .inactive exDrvVoltFail
      ⟨.success, .success, .success, .success⟩ 8400 2000 8700 256).2.2.2.2.2.2
     (by decide)).1,
   ((c7_charge_request_errors exConfig exChgEnv .inactive exDrvVoltFail
      ⟨.success, .success, .success, .success⟩ 8400 2000 8700 256).2.2.2.2.2.2
     (by decide)).2⟩

/-! ### Tick-phase projection lemmas -/

theorem tick_refresh_request_fields (env : TickEnv) (s : CSState) :
    (tick_refresh_request env s).batt = env.batt ∧
      (tick_refresh_request env s).ctrl = s.ctrl ∧
      (tick_refresh_request env s).curr_state = s.curr_state := by
  simp only [tick_refresh_request]
  split <;> exact ⟨rfl, rfl, rfl⟩

theorem decide_charge_state_absent (cfg : Config) (env : TickEnv)
    (s : CSState) (h : s.batt.is_present = .no) :
    (decide_charge_state cfg env s).s =
      set_charge_state
        { s with batt_is_charging := false, battery_was_removed := true }
        .idle := by
  unfold decide_charge_state
  rw [if_pos h]
  rfl

theorem sustain_battery_soc_no_batt (cfg : Config) (ac : Bool)
    (bp : BattPresent) (d : Int) (drv : EcRes) (band : SustainSoc)
    (ctrl : CtrlState) (h : bp ≠ .yes) :
    sustain_battery_soc cfg ac bp d drv band ctrl = ctrl := by
  unfold sustain_battery_soc
  rw [if_pos (Or.inr (Or.inl h))]

theorem tick_current_limit_soc_fields (env : TickEnv) (s : CSState) :
    (tick_current_limit_soc env s).curr_state = s.curr_state ∧
      (tick_current_limit_soc env s).ctrl = s.ctrl ∧
      (tick_current_limit_soc env s).batt = s.batt ∧
      (tick_current_limit_soc env s).requested_voltage =
        s.requested_voltage ∧
      (tick_current_limit_soc env s).requested_current =
        s.requested_current := by
  unfold tick_current_limit_soc
  split <;> exact ⟨rfl, rfl, rfl, rfl, rfl⟩

theorem tick_turn_off_fields (s : CSState) :
    (tick_turn_off s).curr_state = s.curr_state ∧
      (tick_turn_off s).ctrl = s.ctrl ∧
      (tick_turn_off s).batt = s.batt ∧
      (tick_turn_off s).user_current_limit = s.user_current_limit := by
  unfold tick_turn_off
  split <;> exact ⟨rfl, rfl, rfl, rfl⟩

theorem tick_turn_off_idle (s : CSState) (h : s.curr_state = .idle) :
    (tick_turn_off s).requested_voltage = 0 ∧
      (tick_turn_off s).requested_current = 0 := by
  unfold tick_turn_off
  rw [if_pos (Or.inl h)]
  exact ⟨rfl, rfl⟩

theorem tick_user_limit_fields (s : CSState) :
    (tick_user_limit s).curr_state = s.curr_state ∧
      (tick_user_limit s).ctrl = s.ctrl ∧
      (tick_user_limit s).batt = s.batt ∧
      (tick_user_limit s).requested_voltage = s.requested_voltage := by
  unfold tick_user_limit
  split <;> exact ⟨rfl, rfl, rfl, rfl⟩

theorem tick_user_limit_zero (s : CSState) (h : s.requested_current = 0) :
    tick_user_limit s = s := by
  unfold tick_user_limit
  rw [h]
  rw [if_neg (by simp [toUInt32Nat])]

theorem tick_ac_adjust_state (env : TickEnv) (s : CSState) :
    (tick_ac_adjust env s).curr_state = s.curr_state := by
  simp only [tick_ac_adjust]
  split_ifs <;> rfl

theorem tick_round_fields (env : TickEnv) (t : CSState) :
    (tick_round env t).ctrl = t.ctrl ∧
      (tick_round env t).curr_state = t.curr_state ∧
      (tick_round env t).batt = t.batt := ⟨rfl, rfl, rfl⟩

/-- End-of-tick behavior of the clamp/round/override pipeline from a state
whose charge state is IDLE (so the turn-off step zeroes the request). -/
theorem tick_tail_idle (env : TickEnv) (t : CSState)
    (hstate : t.curr_state = .idle) :
    (tick_ac_adjust env (tick_round env (tick_user_limit
        (tick_turn_off t)))).curr_state = .idle ∧
    (env.ac = true → env.battCutOff = true →
      (tick_ac_adjust env (tick_round env (tick_user_limit
        (tick_turn_off t)))).requested_voltage = 0 ∧
      (tick_ac_adjust env (tick_round env (tick_user_limit
        (tick_turn_off t)))).requested_current = 0) ∧
    (env.ac = true → env.battCutOff = false →
      t.ctrl.manual_voltage = -1 → t.ctrl.manual_current = -1 →
      env.closestVoltage 0 = 0 → env.closestCurrent 0 = 0 →
      (tick_ac_adjust env (tick_round env (tick_user_limit
        (tick_turn_off t)))).requested_voltage = 0 ∧
      (tick_ac_adjust env (tick_round env (tick_user_limit
        (tick_turn_off t)))).requested_current = 0) ∧
    (env.ac = false →
      (tick_ac_adjust env (tick_round env (tick_user_limit
        (tick_turn_off t)))).requested_current = -1 ∧
      (tick_ac_adjust env (tick_round env (tick_user_limit
        (tick_turn_off t)))).requested_voltage =
        env.closestVoltage (t.batt.voltage +
          env.chargerInfo.voltage_step)) := by
  obtain ⟨hv0, hc0⟩ := tick_turn_off_idle t hstate
  obtain ⟨h6state, h6ctrl, h6batt, -⟩ := tick_turn_off_fields t
  have h7 : tick_user_limit (tick_turn_off t) = tick_turn_off t :=
    tick_user_limit_zero _ hc0
  have h8v : (tick_round env (tick_user_limit
      (tick_turn_off t))).requested_voltage =
      env.closestVoltage 0 := by
    rw [h7]
    show env.closestVoltage (tick_turn_off t).requested_voltage = _
    rw [hv0]
  have h8c : (tick_round env (tick_user_limit
      (tick_turn_off t))).requested_current =
      env.closestCurrent 0 := by
    rw [h7]
    show env.closestCurrent (tick_turn_off t).requested_current = _
    rw [hc0]
  have h8ctrl : (tick_round env (tick_user_limit
      (tick_turn_off t))).ctrl = t.ctrl := by
    rw [h7]
    show (tick_turn_off t).ctrl = t.ctrl
    exact h6ctrl
  have h8state : (tick_round env (tick_user_limit
      (tick_turn_off t))).curr_state = .idle := by
    rw [h7]
    show (tick_turn_off t).curr_state = .idle
    rw [h6state, hstate]
  refine ⟨?_, ?_, ?_, ?_⟩
  · rw [tick_ac_adjust_state]
    exact h8state
  · intro hac hcut
    simp [tick_ac_adjust, hac, hcut]
  · intro hac hcut hmv hmc hcv hcc
    simp only [tick_ac_adjust, hac, hcut, if_true, Bool.false_eq_true,
      if_false]
    rw [h8ctrl, hmv]
    rw [if_neg (show ¬ ((-1 : Int) ≠ -1) by simp)]
    rw [h8ctrl, hmc]
    rw [if_neg (show ¬ ((-1 : Int) ≠ -1) by simp)]
    constructor
    · rw [h8v, hcv]
    · rw [h8c, hcc]
  · intro hac
    have h8batt : (tick_round env (tick_user_limit
        (tick_turn_off t))).batt = t.batt := by
      rw [h7]
      show (tick_turn_off t).batt = t.batt
      exact h6batt
    simp only [tick_ac_adjust, hac, Bool.false_eq_true, if_false]
    exact ⟨by simp, by rw [h8batt]⟩

theorem charger_task_tick_s (cfg : Config) (env : TickEnv) (s0 : CSState) :
    (charger_task_tick cfg env s0).s =
      tick_ac_adjust env (tick_round env (tick_user_limit
        (tick_turn_off (tick_mid cfg env s0)))) := rfl

theorem tick_mid_absent_state (cfg : Config) (env : TickEnv) (s : CSState)
    (hbp : env.batt.is_present = .no) :
    (tick_mid cfg env s).curr_state = .idle ∧
      (tick_mid cfg env s).ctrl = s.ctrl ∧
      (tick_mid cfg env s).batt = env.batt := by
  obtain ⟨hrb, hrc, -⟩ := tick_refresh_request_fields env s
  have habs : (tick_refresh_request env s).batt.is_present = .no := by
    rw [hrb, hbp]
  have hd := decide_charge_state_absent cfg env _ habs
  have h3state : (tick_calc_is_full (decide_charge_state cfg env
      (tick_refresh_request env s)).s).curr_state = ChargeState.idle := by
    show (decide_charge_state cfg env
      (tick_refresh_request env s)).s.curr_state = _
    rw [hd]
    rfl
  have h3ctrl : (tick_calc_is_full (decide_charge_state cfg env
      (tick_refresh_request env s)).s).ctrl = s.ctrl := by
    show (decide_charge_state cfg env (tick_refresh_request env s)).s.ctrl = _
    rw [hd]
    exact hrc
  have h3batt : (tick_calc_is_full (decide_charge_state cfg env
      (tick_refresh_request env s)).s).batt = env.batt := by
    show (decide_charge_state cfg env (tick_refresh_request env s)).s.batt = _
    rw [hd]
    exact hrb
  have h4ctrl : (tick_sustain cfg env (tick_calc_is_full
      (decide_charge_state cfg env (tick_refresh_request env s)).s)).ctrl
      = s.ctrl := by
    show sustain_battery_soc cfg env.ac
      (tick_calc_is_full (decide_charge_state cfg env
        (tick_refresh_request env s)).s).batt.is_present env.dispCharge
      env.drvDischargeRes
      (tick_calc_is_full (decide_charge_state cfg env
        (tick_refresh_request env s)).s).band
      (tick_calc_is_full (decide_charge_state cfg env
        (tick_refresh_request env s)).s).ctrl = s.ctrl
    rw [h3batt, hbp, sustain_battery_soc_no_batt cfg env.ac .no
      env.dispCharge env.drvDischargeRes _ _ (by decide)]
    exact h3ctrl
  obtain ⟨h5state, h5ctrl, h5batt, -, -⟩ := tick_current_limit_soc_fields env
    (tick_sustain cfg env (tick_calc_is_full (decide_charge_state cfg env
      (tick_refresh_request env s)).s))
  refine ⟨?_, ?_, ?_⟩
  · show (tick_current_limit_soc env (tick_sustain cfg env
      (tick_calc_is_full (decide_charge_state cfg env
        (tick_refresh_request env s)).s))).curr_state = _
    rw [h5state]
    exact h3state
  · show (tick_current_limit_soc env (tick_sustain cfg env
      (tick_calc_is_full (decide_charge_state cfg env
        (tick_refresh_request env s)).s))).ctrl = _
    rw [h5ctrl]
    exact h4ctrl
  · show (tick_current_limit_soc env (tick_sustain cfg env
      (tick_calc_is_full (decide_charge_state cfg env
        (tick_refresh_request env s)).s))).batt = _
    rw [h5batt]
    exact h3batt

/-- C1 counterexample: with the battery definitively absent (BP_NO) and
AC absent, the end-of-tick state is IDLE but the requested current is -1
(and the requested voltage is the no-charge floor), not 0 as claimed. -/
theorem c1_counterexample :
    exTickEnvNoAC.batt.is_present = BattPresent.no ∧
    (charger_task_tick exConfig exTickEnvNoAC exCSState).s.curr_state =
      ChargeState.idle ∧
    (charger_task_tick exConfig exTickEnvNoAC
      exCSState).s.requested_current = -1 := by decide

/-- C1 (amended): whenever battery presence reads BP_NO the tick ends in
state IDLE regardless of prior state; the requested voltage and current
are exactly 0 at the end of the tick provided AC is present and either
the battery is flagged cut off, or no manual voltage/current override is
active (with the charger rounding fixing 0); with AC absent the tick
instead ends with requested current -1 (and the no-charge floor
voltage). -/
theorem c1_battery_absent (cfg : Config) (env : TickEnv) (s : CSState)
    (hbp : env.batt.is_present = .no) :
    (charger_task_tick cfg env s).s.curr_state = .idle ∧
    (env.ac = true → env.battCutOff = true →
      (charger_task_tick cfg env s).s.requested_voltage = 0 ∧
      (charger_task_tick cfg env s).s.requested_current = 0) ∧
    (env.ac = true → env.battCutOff = false →
      s.ctrl.manual_voltage = -1 → s.ctrl.manual_current = -1 →
      env.closestVoltage 0 = 0 → env.closestCurrent 0 = 0 →
      (charger_task_tick cfg env s).s.requested_voltage = 0 ∧
      (charger_task_tick cfg env s).s.requested_current = 0) ∧
    (env.ac = false →
      (charger_task_tick cfg env s).s.requested_current = -1 ∧
      (charger_task_tick cfg env s).s.requested_voltage =
        env.closestVoltage (env.batt.voltage +
          env.chargerInfo.voltage_step)) := by
  have hmid := tick_mid_absent_state cfg env s hbp
  have htail := tick_tail_idle env (tick_mid cfg env s) hmid.1
  refine ⟨?_, ?_, ?_, ?_⟩
  · rw [charger_task_tick_s]
    exact htail.1
  · intro hac hcut
    rw [charger_task_tick_s]
    exact htail.2.1 hac hcut
  · intro hac hcut hmv hmc hcv hcc
    rw [charger_task_tick_s]
    exact htail.2.2.1 hac hcut (by rw [hmid.2.1]; exact hmv)
      (by rw [hmid.2.1]; exact hmc) hcv hcc
  · intro hac
    rw [charger_task_tick_s]
    have h := htail.2.2.2 hac
    rwa [hmid.2.2] at h

/-- C1 witness: absent battery, AC present, not cut off, no manual
overrides — the request is exactly 0/0 and the state IDLE. -/
theorem c1_battery_absent_witness :
    exTickEnvAC.batt.is_present = BattPresent.no ∧
    exTickEnvAC.ac = true ∧ exTickEnvAC.battCutOff = false ∧
    exCSState.ctrl.manual_voltage = -1 ∧
    exCSState.ctrl.manual_current = -1 ∧
    (charger_task_tick exConfig exTickEnvAC exCSState).s.curr_state =
      ChargeState.idle ∧
    (charger_task_tick exConfig exTickEnvAC
      exCSState).s.requested_voltage = 0 ∧
    (charger_task_tick exConfig exTickEnvAC
      exCSState).s.requested_current = 0 :=
  ⟨rfl, rfl, rfl, rfl, rfl,
   (c1_battery_absent exConfig exTickEnvAC exCSState rfl).1,
   ((c1_battery_absent exConfig exTickEnvAC exCSState rfl).2.2.1 rfl rfl
     rfl rfl rfl rfl).1,
   ((c1_battery_absent exConfig exTickEnvAC exCSState rfl).2.2.1 rfl rfl
     rfl rfl rfl rfl).2⟩

end ChargeStateModel
